import Mathlib

/-!
Verification of `src/cmd/dashboard.go` (the `dapr dashboard` command).

The command's `Run` function is embedded shallowly as a pure function
`dashboardCmdRun : Flags → World → List Event × Outcome`.

* `Flags` holds the parsed command-line flags (`--version`, `--kubernetes`,
  `--port`, `--namespace`).
* `World` is the oracle for the external collaborators the command calls:
  the kubernetes client constructor, the pod-existence query, the
  port-forward (tunnel) constructor and initializer, the browser opener and
  the standalone launcher.  Each observable call the command makes is
  recorded, in program order, as an `Event` in the returned trace, and the
  way the command terminates is the `Outcome` (`os.Exit code`, or falling
  off the end of `Run`).
-/

namespace DaprDashboard

/-- Constant `dashboardSvc` from dashboard.go. -/
def dashboardSvc : String := "dapr-dashboard"

/-- Constant `defaultHost` from dashboard.go. -/
def defaultHost : String := "localhost"

/-- Constant `defaultLocalPort` from dashboard.go. -/
def defaultLocalPort : Int := 8080

/-- Constant `daprSystemNamespace` from dashboard.go. -/
def daprSystemNamespace : String := "dapr-system"

/-- Constant `defaultNamespace` from dashboard.go. -/
def defaultNamespace : String := "default"

/-- Constant `remotePort` from dashboard.go. -/
def remotePort : Int := 8080

/-- The command-line flags bound in `init()` of dashboard.go. -/
structure Flags where
  dashboardVersion : Bool
  kubernetesMode : Bool
  dashboardLocalPort : Int
  dashboardNamespace : String
  deriving Repr, DecidableEq

/-- Possible outcomes of one existence query against the cluster:
the query itself can fail (`err`), or report the service found in a
namespace, or report it not found. -/
inductive QueryResult where
  | err : QueryResult
  | found : String → QueryResult
  | notFound : QueryResult
  deriving Repr, DecidableEq

/-- Oracle for the external collaborators of dashboard.go.  `query ns` is
the outcome of `kubernetes.CheckPodExists(client, ns, nil, dashboardSvc)`
(with `ns = ""` the cluster-wide, unrestricted query);
the Booleans say whether the corresponding fallible call succeeds. -/
structure World where
  dashboardVersionString : String
  clientOk : Bool
  query : String → QueryResult
  newPortForwardOk : Bool
  initOk : Bool
  browserOk : Bool
  standaloneOk : Bool

/-- Observable events of one invocation of `DashboardCmd.Run`, in program
order. -/
inductive Event where
  | printVersion (v : String)
  | failInvalidPort (p : Int)
  | clientInit
  | failClientInit
  | probe (ns : String)
  | infoFoundElsewhere (ns : String)
  | failNotFoundAnywhere
  | newTunnel (ns : String)
  | failNewTunnel
  | tunnelInitOk
  | failTunnelInit
  | printFoundNamespace (ns : String)
  | printAvailable (url : String)
  | openBrowser (url : String)
  | failBrowser
  | printFallback (url : String)
  | waitStop
  | standaloneRun
  | printNotInstalled
  deriving Repr, DecidableEq

/-- How the invocation ends: an explicit `os.Exit code`, or `Run`
returning normally. -/
inductive Outcome where
  | exited (code : Nat)
  | finished
  deriving Repr, DecidableEq

/-- Modelled from the spec: `kubernetes.CheckPodExists` (its body is not
under src/; only its call sites are).  Per spec section 4.1, a failure of
the existence check itself is treated as not found, so the
`(found, namespace)` pair the command observes maps `err` to
`(false, "")`. -/
def checkPodExists (query : String → QueryResult) (ns : String) : Bool × String :=
  match query ns with
  | QueryResult.err => (false, "")
  | QueryResult.found n => (true, n)
  | QueryResult.notFound => (false, "")

/-- The candidate-namespace list built at dashboard.go lines 69-75:
the user namespace, then `dapr-system` if distinct, then `default` if
distinct. -/
def candidateNamespaces (dashboardNamespace : String) : List String :=
  let namespaces : List String := [dashboardNamespace]
  let namespaces :=
    if dashboardNamespace ≠ daprSystemNamespace then namespaces ++ [daprSystemNamespace]
    else namespaces
  let namespaces :=
    if dashboardNamespace ≠ defaultNamespace then namespaces ++ [defaultNamespace]
    else namespaces
  namespaces

/-- The search loop at dashboard.go lines 77-84: probe each namespace in
order, stop at the first hit.  Returns the trace of probes together with
`foundNamespace` (the `""` sentinel means no hit, as in the Go code). -/
def searchLoop (probe : String → Bool × String) : List String → List Event × String
  | [] => ([], "")
  | ns :: rest =>
    if (probe ns).1 then ([Event.probe ns], ns)
    else
      let r := searchLoop probe rest
      (Event.probe ns :: r.1, r.2)

/-- Shallow embedding of `DashboardCmd.Run` (dashboard.go lines 49-151). -/
def dashboardCmdRun (f : Flags) (w : World) : List Event × Outcome :=
  if f.dashboardVersion then
    ([Event.printVersion w.dashboardVersionString], Outcome.exited 0)
  else if f.dashboardLocalPort ≤ 0 then
    ([Event.failInvalidPort f.dashboardLocalPort], Outcome.exited 1)
  else if f.kubernetesMode then
    if w.clientOk = false then
      ([Event.clientInit, Event.failClientInit], Outcome.exited 1)
    else
      let probe := checkPodExists w.query
      let s := searchLoop probe (candidateNamespaces f.dashboardNamespace)
      if s.2 = "" then
        let r := probe ""
        if r.1 then
          (Event.clientInit :: s.1 ++ [Event.probe "", Event.infoFoundElsewhere r.2],
            Outcome.exited 1)
        else
          (Event.clientInit :: s.1 ++ [Event.probe "", Event.failNotFoundAnywhere],
            Outcome.exited 1)
      else
        if w.newPortForwardOk = false then
          (Event.clientInit :: s.1 ++ [Event.newTunnel s.2, Event.failNewTunnel],
            Outcome.exited 1)
        else if w.initOk = false then
          (Event.clientInit :: s.1 ++ [Event.newTunnel s.2, Event.failTunnelInit],
            Outcome.exited 1)
        else
          let webURL : String := "http://" ++ defaultHost ++ ":" ++ toString f.dashboardLocalPort
          let tail : List Event :=
            if w.browserOk then
              [Event.openBrowser webURL, Event.waitStop]
            else
              [Event.openBrowser webURL, Event.failBrowser, Event.printFallback webURL,
                Event.waitStop]
          (Event.clientInit :: s.1 ++
              [Event.newTunnel s.2, Event.tunnelInitOk, Event.printFoundNamespace s.2,
                Event.printAvailable webURL] ++ tail,
            Outcome.finished)
  else
    if w.standaloneOk then
      ([Event.standaloneRun], Outcome.finished)
    else
      ([Event.standaloneRun, Event.printNotInstalled], Outcome.finished)

/-- Modelled from the spec: the tunnel's stop behaviour
(`portForward.Stop` / `GetStop`, whose body lives in pkg/kubernetes, not
under src/).  Per spec section 4.3, `Stop` is idempotent and the
StopSignal fires exactly once, on the first stop. -/
structure TunnelState where
  stopped : Bool
  stopFirings : Nat
  deriving Repr, DecidableEq

/-- Modelled from the spec: one `Stop` request on the tunnel. -/
def TunnelState.stop (t : TunnelState) : TunnelState :=
  if t.stopped then t else TunnelState.mk true (t.stopFirings + 1)

/-- The candidate list as the spec words it (section 3): the user-supplied
namespace, then the system namespace if distinct, then the default
namespace if distinct. -/
def specCandidateList (user sys dflt : String) : List String :=
  [user] ++ (if sys ≠ user then [sys] else []) ++ (if dflt ≠ user then [dflt] else [])

/-- Recognizer for tunnel-creation events, used to count how many tunnel
handles an invocation creates. -/
def isNewTunnelEvt : Event → Bool
  | Event.newTunnel _ => true
  | _ => false

/-! ### Helper lemmas about the search loop -/

/-- Every event the search loop emits is a probe. -/
theorem searchLoop_probes (probe : String → Bool × String) :
    ∀ l : List String, ∀ e ∈ (searchLoop probe l).1, ∃ ns, e = Event.probe ns := by
  intro l
  induction l with
  | nil => intro e he; simp [searchLoop] at he
  | cons ns rest ih =>
    intro e he
    by_cases h : (probe ns).1
    · simp [searchLoop, h] at he
      exact ⟨ns, he⟩
    · simp [searchLoop, h] at he
      rcases he with he | he
      · exact ⟨ns, he⟩
      · exact ih e he

/-- If every namespace before `ns` misses and `ns` hits, the search loop
probes exactly the prefix up to and including `ns` and returns `ns`. -/
theorem searchLoop_found (probe : String → Bool × String) (pre : List String) (ns : String)
    (post : List String) (hpre : ∀ m ∈ pre, (probe m).1 = false) (hns : (probe ns).1 = true) :
    searchLoop probe (pre ++ ns :: post) = (pre.map Event.probe ++ [Event.probe ns], ns) := by
  induction pre with
  | nil => simp [searchLoop, hns]
  | cons m rest ih =>
    have hm : (probe m).1 = false := hpre m (List.mem_cons_self m rest)
    have hrest : ∀ x ∈ rest, (probe x).1 = false := fun x hx => hpre x (List.mem_cons_of_mem m hx)
    simp [searchLoop, hm, ih hrest]

/-- If every candidate misses, the search loop probes them all and returns
the `""` sentinel. -/
theorem searchLoop_all_miss (probe : String → Bool × String) :
    ∀ l : List String, (∀ m ∈ l, (probe m).1 = false) →
      searchLoop probe l = (l.map Event.probe, "") := by
  intro l
  induction l with
  | nil => intro _; simp [searchLoop]
  | cons m rest ih =>
    intro h
    have hm : (probe m).1 = false := h m (List.mem_cons_self m rest)
    have hrest : ∀ x ∈ rest, (probe x).1 = false := fun x hx => h x (List.mem_cons_of_mem m hx)
    simp [searchLoop, hm, ih hrest]

/-- The empty string never appears among the candidates of a nonempty user
namespace. -/
theorem empty_not_mem_candidates (ns : String) (h : ns ≠ "") :
    "" ∉ candidateNamespaces ns := by
  intro hmem
  by_cases h1 : ns = daprSystemNamespace <;> by_cases h2 : ns = defaultNamespace <;>
    simp_all [candidateNamespaces, daprSystemNamespace, defaultNamespace]

/-- A non-probe event does not occur in a list of probes. -/
theorem probes_not_mem (pr : List Event) (hpr : ∀ e ∈ pr, ∃ m, e = Event.probe m)
    (x : Event) (hx : ∀ m, x ≠ Event.probe m) : x ∉ pr := by
  intro hmem
  rcases hpr x hmem with ⟨m, hm⟩
  exact hx m hm

/-- A non-probe event has count zero in a list of probes. -/
theorem probes_count_zero (pr : List Event) (hpr : ∀ e ∈ pr, ∃ m, e = Event.probe m)
    (x : Event) (hx : ∀ m, x ≠ Event.probe m) : pr.count x = 0 :=
  List.count_eq_zero.mpr (probes_not_mem pr hpr x hx)

/-- A list of probes contains no tunnel-creation event. -/
theorem probes_countP_newTunnel (pr : List Event) (hpr : ∀ e ∈ pr, ∃ m, e = Event.probe m) :
    pr.countP isNewTunnelEvt = 0 := by
  refine List.countP_eq_zero.mpr ?_
  intro e he
  rcases hpr e he with ⟨m, hm⟩
  subst hm
  simp [isNewTunnelEvt]

/-- Exhaustive characterization of every branch of `DashboardCmd.Run`:
the run result is exactly one of the ten traces below, matching the ten
exit paths of dashboard.go. -/
theorem run_cases (f : Flags) (w : World) :
    (f.dashboardVersion = true
      ∧ dashboardCmdRun f w = ([Event.printVersion w.dashboardVersionString], Outcome.exited 0))
    ∨ dashboardCmdRun f w = ([Event.failInvalidPort f.dashboardLocalPort], Outcome.exited 1)
    ∨ (w.clientOk = false
      ∧ dashboardCmdRun f w = ([Event.clientInit, Event.failClientInit], Outcome.exited 1))
    ∨ dashboardCmdRun f w
        = (Event.clientInit ::
            (searchLoop (checkPodExists w.query) (candidateNamespaces f.dashboardNamespace)).1
            ++ [Event.probe "", Event.infoFoundElsewhere (checkPodExists w.query "").2],
          Outcome.exited 1)
    ∨ dashboardCmdRun f w
        = (Event.clientInit ::
            (searchLoop (checkPodExists w.query) (candidateNamespaces f.dashboardNamespace)).1
            ++ [Event.probe "", Event.failNotFoundAnywhere], Outcome.exited 1)
    ∨ dashboardCmdRun f w
        = (Event.clientInit ::
            (searchLoop (checkPodExists w.query) (candidateNamespaces f.dashboardNamespace)).1
            ++ [Event.newTunnel
                  (searchLoop (checkPodExists w.query) (candidateNamespaces f.dashboardNamespace)).2,
                Event.failNewTunnel], Outcome.exited 1)
    ∨ (w.initOk = false
      ∧ dashboardCmdRun f w
        = (Event.clientInit ::
            (searchLoop (checkPodExists w.query) (candidateNamespaces f.dashboardNamespace)).1
            ++ [Event.newTunnel
                  (searchLoop (checkPodExists w.query) (candidateNamespaces f.dashboardNamespace)).2,
                Event.failTunnelInit], Outcome.exited 1))
    ∨ (w.initOk = true
      ∧ dashboardCmdRun f w
        = (Event.clientInit ::
            (searchLoop (checkPodExists w.query) (candidateNamespaces f.dashboardNamespace)).1
            ++ [Event.newTunnel
                  (searchLoop (checkPodExists w.query) (candidateNamespaces f.dashboardNamespace)).2,
                Event.tunnelInitOk,
                Event.printFoundNamespace
                  (searchLoop (checkPodExists w.query) (candidateNamespaces f.dashboardNamespace)).2,
                Event.printAvailable
                  ("http://" ++ defaultHost ++ ":" ++ toString f.dashboardLocalPort)]
            ++ (if w.browserOk then
                  [Event.openBrowser
                      ("http://" ++ defaultHost ++ ":" ++ toString f.dashboardLocalPort),
                    Event.waitStop]
                else
                  [Event.openBrowser
                      ("http://" ++ defaultHost ++ ":" ++ toString f.dashboardLocalPort),
                    Event.failBrowser,
                    Event.printFallback
                      ("http://" ++ defaultHost ++ ":" ++ toString f.dashboardLocalPort),
                    Event.waitStop]), Outcome.finished))
    ∨ dashboardCmdRun f w = ([Event.standaloneRun], Outcome.finished)
    ∨ dashboardCmdRun f w = ([Event.standaloneRun, Event.printNotInstalled], Outcome.finished) := by
  by_cases hv : f.dashboardVersion
  · exact Or.inl ⟨hv, by simp [dashboardCmdRun, hv]⟩
  by_cases hp : f.dashboardLocalPort ≤ 0
  · exact Or.inr (Or.inl (by simp [dashboardCmdRun, hv, hp]))
  by_cases hk : f.kubernetesMode
  case neg =>
    by_cases hst : w.standaloneOk
    · refine Or.inr (Or.inr (Or.inr (Or.inr (Or.inr (Or.inr (Or.inr (Or.inr (Or.inl ?_))))))))
      simp [dashboardCmdRun, hv, hp, hk, hst]
    · refine Or.inr (Or.inr (Or.inr (Or.inr (Or.inr (Or.inr (Or.inr (Or.inr (Or.inr ?_))))))))
      simp [dashboardCmdRun, hv, hp, hk, hst]
  case pos =>
    by_cases hc : w.clientOk = false
    · exact Or.inr (Or.inr (Or.inl ⟨hc, by simp [dashboardCmdRun, hv, hp, hk, hc]⟩))
    by_cases h2 :
        (searchLoop (checkPodExists w.query) (candidateNamespaces f.dashboardNamespace)).2 = ""
    · by_cases hcw : (checkPodExists w.query "").1
      · refine Or.inr (Or.inr (Or.inr (Or.inl ?_)))
        simp [dashboardCmdRun, hv, hp, hk, hc, h2, hcw]
      · refine Or.inr (Or.inr (Or.inr (Or.inr (Or.inl ?_))))
        simp [dashboardCmdRun, hv, hp, hk, hc, h2, hcw]
    · by_cases hnpf : w.newPortForwardOk = false
      · refine Or.inr (Or.inr (Or.inr (Or.inr (Or.inr (Or.inl ?_)))))
        simp [dashboardCmdRun, hv, hp, hk, hc, h2, hnpf]
      · by_cases hinit : w.initOk = false
        · refine Or.inr (Or.inr (Or.inr (Or.inr (Or.inr (Or.inr (Or.inl ⟨hinit, ?_⟩))))))
          simp [dashboardCmdRun, hv, hp, hk, hc, h2, hnpf, hinit]
        · refine Or.inr (Or.inr (Or.inr (Or.inr (Or.inr (Or.inr (Or.inr (Or.inl
            ⟨by simpa using hinit, ?_⟩)))))))
          simp [dashboardCmdRun, hv, hp, hk, hc, h2, hnpf, hinit]

/-! ### Claim theorems -/

/-- C1: the candidate namespaces are probed in priority order and the first
namespace in which the service is found wins: when every candidate before
`ns` misses and `ns` hits, the resolver emits exactly the probes of the
candidates up to and including `ns`, returns `ns`, and performs no
existence query against any later candidate. -/
theorem first_hit_wins (q : String → QueryResult) (pre : List String) (ns : String)
    (post : List String)
    (hpre : ∀ m ∈ pre, (checkPodExists q m).1 = false)
    (hns : (checkPodExists q ns).1 = true) :
    searchLoop (checkPodExists q) (pre ++ ns :: post)
      = (pre.map Event.probe ++ [Event.probe ns], ns) :=
  searchLoop_found (checkPodExists q) pre ns post hpre hns

/-- Witness for C1: service in the second candidate but not the first —
the second is returned and the third is never probed. -/
theorem first_hit_wins_witness :
    searchLoop
        (checkPodExists fun n =>
          if n = "dapr-system" then QueryResult.found "dapr-system" else QueryResult.notFound)
        (["custom"] ++ "dapr-system" :: ["default"])
      = ([Event.probe "custom", Event.probe "dapr-system"], "dapr-system") := by
  simpa using
    first_hit_wins
      (fun n =>
        if n = "dapr-system" then QueryResult.found "dapr-system" else QueryResult.notFound)
      ["custom"] "dapr-system" ["default"] (by decide) (by decide)

/-- C2: for every user namespace the candidate list is exactly the user
namespace, then `dapr-system` if distinct, then `default` if distinct; it
has no duplicates and the user namespace comes first. -/
theorem candidate_list_exact (ns : String) :
    candidateNamespaces ns = specCandidateList ns daprSystemNamespace defaultNamespace
    ∧ (candidateNamespaces ns).Nodup
    ∧ (candidateNamespaces ns).head? = some ns := by
  by_cases h1 : ns = daprSystemNamespace
  · subst h1
    decide
  · by_cases h2 : ns = defaultNamespace
    · subst h2
      decide
    · have h1' : daprSystemNamespace ≠ ns := fun h => h1 h.symm
      have h2' : defaultNamespace ≠ ns := fun h => h2 h.symm
      refine ⟨?_, ?_, ?_⟩ <;>
        simp_all [candidateNamespaces, specCandidateList, daprSystemNamespace, defaultNamespace]

/-- C3 counterexample: with the (reachable) user namespace `""` and the
service nowhere, the invocation performs two existence probes with no
namespace restriction (namespace `""`), not exactly one — the first one
already happens inside the candidate loop. -/
theorem fallback_probe_counterexample :
    ((dashboardCmdRun (Flags.mk false true 8080 "")
        (World.mk "0.9.0" true (fun _ => QueryResult.notFound) true true true true)).1.count
      (Event.probe "")) = 2 := by decide

/-- C3 (amended): provided the user-supplied namespace is nonempty, if the
search finds the service in no candidate namespace then exactly one
cluster-wide probe (namespace `""`) occurs, the process exits 1 in both
the found and not-found sub-cases, and the tunnel manager is never
invoked: no tunnel is created or initialized and nothing waits on the
stop signal. -/
theorem fallback_single_probe (f : Flags) (w : World) (hv : f.dashboardVersion = false)
    (hp : 0 < f.dashboardLocalPort) (hk : f.kubernetesMode = true) (hc : w.clientOk = true)
    (hns : f.dashboardNamespace ≠ "")
    (hmiss : ∀ ns ∈ candidateNamespaces f.dashboardNamespace,
      (checkPodExists w.query ns).1 = false) :
    (dashboardCmdRun f w).1.count (Event.probe "") = 1
    ∧ (dashboardCmdRun f w).2 = Outcome.exited 1
    ∧ (∀ ns, Event.newTunnel ns ∉ (dashboardCmdRun f w).1)
    ∧ Event.tunnelInitOk ∉ (dashboardCmdRun f w).1
    ∧ Event.waitStop ∉ (dashboardCmdRun f w).1 := by
  have hple : ¬ f.dashboardLocalPort ≤ 0 := not_le.mpr hp
  have hsearch := searchLoop_all_miss (checkPodExists w.query)
    (candidateNamespaces f.dashboardNamespace) hmiss
  have hnotin : Event.probe "" ∉ (candidateNamespaces f.dashboardNamespace).map Event.probe := by
    intro hmem
    rcases List.mem_map.mp hmem with ⟨a, ha, hae⟩
    rw [Event.probe.injEq] at hae
    exact empty_not_mem_candidates f.dashboardNamespace hns (hae ▸ ha)
  have hcnt : ((candidateNamespaces f.dashboardNamespace).map Event.probe).count
      (Event.probe "") = 0 := List.count_eq_zero.mpr hnotin
  by_cases hcw : (checkPodExists w.query "").1 <;>
  · have hrun : dashboardCmdRun f w
        = (Event.clientInit :: (candidateNamespaces f.dashboardNamespace).map Event.probe
            ++ [Event.probe "",
                if (checkPodExists w.query "").1 then
                  Event.infoFoundElsewhere (checkPodExists w.query "").2
                else Event.failNotFoundAnywhere],
            Outcome.exited 1) := by
      simp [dashboardCmdRun, hv, hk, hc, hple, hsearch, hcw]
    refine ⟨?_, by simp [hrun], ?_, ?_, ?_⟩ <;>
      simp [hrun, hcw, List.count_cons, List.count_append, hcnt, List.mem_map]

/-- Witness for C3 (amended): namespace `custom`, service nowhere. -/
theorem fallback_single_probe_witness :
    ((dashboardCmdRun (Flags.mk false true 8080 "custom")
        (World.mk "0.9.0" true (fun _ => QueryResult.notFound) true true true true)).1.count
      (Event.probe "")) = 1
    ∧ (dashboardCmdRun (Flags.mk false true 8080 "custom")
        (World.mk "0.9.0" true (fun _ => QueryResult.notFound) true true true true)).2
      = Outcome.exited 1 :=
  ⟨(fallback_single_probe _ _ rfl (by decide) rfl rfl (by decide) (by decide)).1,
    (fallback_single_probe _ _ rfl (by decide) rfl rfl (by decide) (by decide)).2.1⟩

/-- C4 counterexample: with the version flag set, a zero port is not
rejected — the command prints the version and exits 0, so the claim as
stated (every non-positive port exits 1) is false. -/
theorem invalid_port_counterexample :
    dashboardCmdRun (Flags.mk true true 0 "dapr-system")
        (World.mk "0.9.0" true (fun _ => QueryResult.notFound) true true true true)
      = ([Event.printVersion "0.9.0"], Outcome.exited 0)
    ∧ (dashboardCmdRun (Flags.mk true true 0 "dapr-system")
        (World.mk "0.9.0" true (fun _ => QueryResult.notFound) true true true true)).2
      ≠ Outcome.exited 1 := by
  refine ⟨by rfl, by decide⟩

/-- C4 (amended): when the version flag is not set, every zero or negative
port is rejected with exit 1 before any namespace search: no cluster
client is constructed and no existence query is made. -/
theorem invalid_port_fail_fast (f : Flags) (w : World) (hv : f.dashboardVersion = false)
    (hp : f.dashboardLocalPort ≤ 0) :
    dashboardCmdRun f w = ([Event.failInvalidPort f.dashboardLocalPort], Outcome.exited 1)
    ∧ Event.clientInit ∉ (dashboardCmdRun f w).1
    ∧ ∀ ns, Event.probe ns ∉ (dashboardCmdRun f w).1 := by
  have h : dashboardCmdRun f w
      = ([Event.failInvalidPort f.dashboardLocalPort], Outcome.exited 1) := by
    simp [dashboardCmdRun, hv, hp]
  exact ⟨h, by simp [h], by intro ns; simp [h]⟩

/-- Witness for C4 (amended): port 0 without the version flag. -/
theorem invalid_port_fail_fast_witness :
    dashboardCmdRun (Flags.mk false true 0 "custom")
        (World.mk "0.9.0" true (fun _ => QueryResult.notFound) true true true true)
      = ([Event.failInvalidPort 0], Outcome.exited 1) :=
  (invalid_port_fail_fast _ _ rfl (by decide)).1

/-- C5: the "dashboard available" message occurs in a trace only when the
tunnel initialization succeeded, and then the trace is exactly the
success trace: the message follows `tunnelInitOk` and precedes the final
blocking `waitStop` — never after the wait begins. -/
theorem available_between_init_and_wait (f : Flags) (w : World) (url : String)
    (h : Event.printAvailable url ∈ (dashboardCmdRun f w).1) :
    w.initOk = true
    ∧ url = "http://" ++ defaultHost ++ ":" ++ toString f.dashboardLocalPort
    ∧ (dashboardCmdRun f w).1
        = Event.clientInit ::
            (searchLoop (checkPodExists w.query) (candidateNamespaces f.dashboardNamespace)).1
            ++ [Event.newTunnel
                  (searchLoop (checkPodExists w.query)
                    (candidateNamespaces f.dashboardNamespace)).2,
                Event.tunnelInitOk,
                Event.printFoundNamespace
                  (searchLoop (checkPodExists w.query)
                    (candidateNamespaces f.dashboardNamespace)).2,
                Event.printAvailable url]
            ++ (if w.browserOk then [Event.openBrowser url, Event.waitStop]
                else [Event.openBrowser url, Event.failBrowser, Event.printFallback url,
                  Event.waitStop]) := by
  have hpr := searchLoop_probes (checkPodExists w.query) (candidateNamespaces f.dashboardNamespace)
  rcases run_cases f w with ⟨_, hE⟩ | hE | ⟨_, hE⟩ | hE | hE | hE | ⟨_, hE⟩ | ⟨hinit, hE⟩
    | hE | hE
  · rw [hE] at h; simp at h
  · rw [hE] at h; simp at h
  · rw [hE] at h; simp at h
  · rw [hE] at h
    simp at h
    rcases hpr _ h with ⟨m, hm⟩
    simp at hm
  · rw [hE] at h
    simp at h
    rcases hpr _ h with ⟨m, hm⟩
    simp at hm
  · rw [hE] at h
    simp at h
    rcases hpr _ h with ⟨m, hm⟩
    simp at hm
  · rw [hE] at h
    simp at h
    rcases hpr _ h with ⟨m, hm⟩
    simp at hm
  · by_cases hb : w.browserOk
    · rw [hE] at h
      simp [hb] at h
      rcases h with h | h
      · rcases hpr _ h with ⟨m, hm⟩
        simp at hm
      · subst h
        exact ⟨hinit, rfl, by rw [hE]⟩
    · rw [hE] at h
      simp [hb] at h
      rcases h with h | h
      · rcases hpr _ h with ⟨m, hm⟩
        simp at hm
      · subst h
        exact ⟨hinit, rfl, by rw [hE]⟩
  · rw [hE] at h; simp at h
  · rw [hE] at h; simp at h

/-- Witness for C5: concrete success run — the message sits between the
successful initialization and the final wait. -/
theorem available_between_init_and_wait_witness :
    (dashboardCmdRun (Flags.mk false true 8080 "custom")
        (World.mk "0.9.0" true
          (fun n =>
            if n = "dapr-system" then QueryResult.found "dapr-system" else QueryResult.notFound)
          true true true true)).1
      = [Event.clientInit, Event.probe "custom", Event.probe "dapr-system",
          Event.newTunnel "dapr-system", Event.tunnelInitOk,
          Event.printFoundNamespace "dapr-system",
          Event.printAvailable "http://localhost:8080",
          Event.openBrowser "http://localhost:8080", Event.waitStop] := by
  have h := available_between_init_and_wait (Flags.mk false true 8080 "custom")
    (World.mk "0.9.0" true
      (fun n =>
        if n = "dapr-system" then QueryResult.found "dapr-system" else QueryResult.notFound)
      true true true true)
    "http://localhost:8080" (by decide)
  rw [h.2.2]
  decide

/-- C6: at most one tunnel handle is created per invocation; once
initialization succeeds the trace contains exactly one blocking wait on
the stop signal, placed at the very end (the cluster branch is not exited
before the stop signal fires); and the modelled tunnel stop is
idempotent — two stops fire the stop signal exactly once. -/
theorem tunnel_single_handle_single_stop :
    (∀ f w, (dashboardCmdRun f w).1.countP isNewTunnelEvt ≤ 1)
    ∧ (∀ f w, Event.tunnelInitOk ∈ (dashboardCmdRun f w).1 →
        (dashboardCmdRun f w).1.count Event.waitStop = 1
        ∧ (∃ pre, (dashboardCmdRun f w).1 = pre ++ [Event.waitStop])
        ∧ (dashboardCmdRun f w).2 = Outcome.finished)
    ∧ (∀ t : TunnelState, t.stop.stop = t.stop)
    ∧ (TunnelState.stop (TunnelState.stop (TunnelState.mk false 0))).stopFirings = 1 := by
  refine ⟨?_, ?_, ?_, by decide⟩
  · intro f w
    have h0 := probes_countP_newTunnel _
      (searchLoop_probes (checkPodExists w.query) (candidateNamespaces f.dashboardNamespace))
    rcases run_cases f w with ⟨_, hE⟩ | hE | ⟨_, hE⟩ | hE | hE | hE | ⟨_, hE⟩ | ⟨_, hE⟩
      | hE | hE <;>
      rw [hE] <;>
      by_cases hb : w.browserOk <;>
      simp [hb, List.countP_cons, List.countP_append, isNewTunnelEvt, h0]
  · intro f w hmem
    have hprobes := searchLoop_probes (checkPodExists w.query)
      (candidateNamespaces f.dashboardNamespace)
    have hws := probes_count_zero _ hprobes Event.waitStop (by simp)
    rcases run_cases f w with ⟨_, hE⟩ | hE | ⟨_, hE⟩ | hE | hE | hE | ⟨_, hE⟩ | ⟨_, hE⟩
      | hE | hE
    · rw [hE] at hmem; simp at hmem
    · rw [hE] at hmem; simp at hmem
    · rw [hE] at hmem; simp at hmem
    · rw [hE] at hmem
      simp at hmem
      rcases hprobes _ hmem with ⟨m, hm⟩
      simp at hm
    · rw [hE] at hmem
      simp at hmem
      rcases hprobes _ hmem with ⟨m, hm⟩
      simp at hm
    · rw [hE] at hmem
      simp at hmem
      rcases hprobes _ hmem with ⟨m, hm⟩
      simp at hm
    · rw [hE] at hmem
      simp at hmem
      rcases hprobes _ hmem with ⟨m, hm⟩
      simp at hm
    · by_cases hb : w.browserOk
      · refine ⟨?_, ⟨Event.clientInit ::
          (searchLoop (checkPodExists w.query) (candidateNamespaces f.dashboardNamespace)).1
          ++ [Event.newTunnel
                (searchLoop (checkPodExists w.query)
                  (candidateNamespaces f.dashboardNamespace)).2,
              Event.tunnelInitOk,
              Event.printFoundNamespace
                (searchLoop (checkPodExists w.query)
                  (candidateNamespaces f.dashboardNamespace)).2,
              Event.printAvailable ("http://" ++ defaultHost ++ ":"
                ++ toString f.dashboardLocalPort),
              Event.openBrowser ("http://" ++ defaultHost ++ ":"
                ++ toString f.dashboardLocalPort)], ?_⟩, ?_⟩
        · rw [hE]
          simp [hb, List.count_cons, List.count_append, hws]
        · rw [hE]
          simp [hb]
        · rw [hE]
      · refine ⟨?_, ⟨Event.clientInit ::
          (searchLoop (checkPodExists w.query) (candidateNamespaces f.dashboardNamespace)).1
          ++ [Event.newTunnel
                (searchLoop (checkPodExists w.query)
                  (candidateNamespaces f.dashboardNamespace)).2,
              Event.tunnelInitOk,
              Event.printFoundNamespace
                (searchLoop (checkPodExists w.query)
                  (candidateNamespaces f.dashboardNamespace)).2,
              Event.printAvailable ("http://" ++ defaultHost ++ ":"
                ++ toString f.dashboardLocalPort),
              Event.openBrowser ("http://" ++ defaultHost ++ ":"
                ++ toString f.dashboardLocalPort),
              Event.failBrowser,
              Event.printFallback ("http://" ++ defaultHost ++ ":"
                ++ toString f.dashboardLocalPort)], ?_⟩, ?_⟩
        · rw [hE]
          simp [hb, List.count_cons, List.count_append, hws]
        · rw [hE]
          simp [hb]
        · rw [hE]
    · rw [hE] at hmem; simp at hmem
    · rw [hE] at hmem; simp at hmem
  · intro t
    by_cases ht : t.stopped <;>
      simp [TunnelState.stop, ht]

/-- Witness for C6: a concrete success run has exactly one final wait. -/
theorem tunnel_single_handle_single_stop_witness :
    ((dashboardCmdRun (Flags.mk false true 8080 "custom")
        (World.mk "0.9.0" true
          (fun n =>
            if n = "dapr-system" then QueryResult.found "dapr-system" else QueryResult.notFound)
          true true true true)).1.count Event.waitStop = 1)
    ∧ (dashboardCmdRun (Flags.mk false true 8080 "custom")
        (World.mk "0.9.0" true
          (fun n =>
            if n = "dapr-system" then QueryResult.found "dapr-system" else QueryResult.notFound)
          true true true true)).2 = Outcome.finished :=
  ⟨(tunnel_single_handle_single_stop.2.1 _ _ (by decide)).1,
    (tunnel_single_handle_single_stop.2.1 _ _ (by decide)).2.2⟩

/-- C7: in the success path the local URL is `http://localhost:<port>`;
when the browser launch fails the failure is reported, the same URL is
printed again as a manual fallback, and the run still blocks on the stop
signal instead of exiting. -/
theorem browser_failure_nonfatal (f : Flags) (w : World) (hv : f.dashboardVersion = false)
    (hp : 0 < f.dashboardLocalPort) (hk : f.kubernetesMode = true) (hc : w.clientOk = true)
    (hfound : (searchLoop (checkPodExists w.query) (candidateNamespaces f.dashboardNamespace)).2
      ≠ "")
    (hnpf : w.newPortForwardOk = true) (hinit : w.initOk = true) (hb : w.browserOk = false) :
    dashboardCmdRun f w
      = (Event.clientInit ::
          (searchLoop (checkPodExists w.query) (candidateNamespaces f.dashboardNamespace)).1
          ++ [Event.newTunnel
                (searchLoop (checkPodExists w.query)
                  (candidateNamespaces f.dashboardNamespace)).2,
              Event.tunnelInitOk,
              Event.printFoundNamespace
                (searchLoop (checkPodExists w.query)
                  (candidateNamespaces f.dashboardNamespace)).2,
              Event.printAvailable ("http://localhost:" ++ toString f.dashboardLocalPort),
              Event.openBrowser ("http://localhost:" ++ toString f.dashboardLocalPort),
              Event.failBrowser,
              Event.printFallback ("http://localhost:" ++ toString f.dashboardLocalPort),
              Event.waitStop], Outcome.finished) := by
  have hple : ¬ f.dashboardLocalPort ≤ 0 := not_le.mpr hp
  have hurl : "http://" ++ defaultHost ++ ":" ++ toString f.dashboardLocalPort
      = "http://localhost:" ++ toString f.dashboardLocalPort :=
    congrArg (fun s => s ++ toString f.dashboardLocalPort)
      (by decide : "http://" ++ defaultHost ++ ":" = "http://localhost:")
  simp [dashboardCmdRun, hv, hk, hc, hple, hfound, hnpf, hinit, hb, hurl]

/-- Witness for C7: port 9090, service in `dapr-system`, browser fails —
the URL `http://localhost:9090` is printed, then printed again as
fallback, and the run still ends in the blocking wait. -/
theorem browser_failure_nonfatal_witness :
    dashboardCmdRun (Flags.mk false true 9090 "custom")
        (World.mk "0.9.0" true
          (fun n =>
            if n = "dapr-system" then QueryResult.found "dapr-system" else QueryResult.notFound)
          true true false true)
      = ([Event.clientInit, Event.probe "custom", Event.probe "dapr-system",
          Event.newTunnel "dapr-system", Event.tunnelInitOk,
          Event.printFoundNamespace "dapr-system",
          Event.printAvailable "http://localhost:9090",
          Event.openBrowser "http://localhost:9090", Event.failBrowser,
          Event.printFallback "http://localhost:9090", Event.waitStop],
        Outcome.finished) := by
  have h := browser_failure_nonfatal (Flags.mk false true 9090 "custom")
    (World.mk "0.9.0" true
      (fun n =>
        if n = "dapr-system" then QueryResult.found "dapr-system" else QueryResult.notFound)
      true true false true)
    rfl (by decide) rfl rfl (by decide) rfl rfl rfl
  rw [h]
  decide

/-- The run result depends on the existence query only through the
`(found, namespace)` view `checkPodExists` gives the command. -/
theorem run_query_congr (f : Flags) (w : World) (q2 : String → QueryResult)
    (h : checkPodExists w.query = checkPodExists q2) :
    dashboardCmdRun f w
      = dashboardCmdRun f (World.mk w.dashboardVersionString w.clientOk q2
          w.newPortForwardOk w.initOk w.browserOk w.standaloneOk) := by
  cases w with
  | mk a b q c d e g =>
    have h2 : checkPodExists q = checkPodExists q2 := h
    simp only [dashboardCmdRun]
    rw [h2]

/-- C9: an existence-query failure is treated exactly as "not found in
that namespace": the whole run is unchanged if an erroring namespace is
replaced by a not-found one, the search simply moves on to the next
candidate, and only a failure to construct the cluster client is fatal
(exit 1 before any probe). -/
theorem query_error_ignored (f : Flags) (w : World) (ns : String)
    (hq : w.query ns = QueryResult.err) :
    dashboardCmdRun f w
      = dashboardCmdRun f (World.mk w.dashboardVersionString w.clientOk
          (fun n => if n = ns then QueryResult.notFound else w.query n)
          w.newPortForwardOk w.initOk w.browserOk w.standaloneOk)
    ∧ (∀ rest, searchLoop (checkPodExists w.query) (ns :: rest)
        = (Event.probe ns :: (searchLoop (checkPodExists w.query) rest).1,
            (searchLoop (checkPodExists w.query) rest).2))
    ∧ (∀ g v, g.dashboardVersion = false → 0 < g.dashboardLocalPort →
        g.kubernetesMode = true → World.clientOk v = false →
        dashboardCmdRun g v = ([Event.clientInit, Event.failClientInit], Outcome.exited 1)
        ∧ ∀ m, Event.probe m ∉ (dashboardCmdRun g v).1) := by
  refine ⟨?_, ?_, ?_⟩
  · apply run_query_congr
    funext n
    by_cases hn : n = ns
    · subst hn
      simp [checkPodExists, hq]
    · simp [checkPodExists, hn]
  · intro rest
    simp [searchLoop, checkPodExists, hq]
  · intro g v h1 h2 h3 h4
    have hple : ¬ g.dashboardLocalPort ≤ 0 := not_le.mpr h2
    constructor
    · simp [dashboardCmdRun, h1, h3, h4, hple]
    · intro m
      simp [dashboardCmdRun, h1, h3, h4, hple]

/-- Witness for C9: a query erroring on `custom` yields the same run as
one reporting not-found there. -/
theorem query_error_ignored_witness :
    dashboardCmdRun (Flags.mk false true 8080 "custom")
        (World.mk "0.9.0" true
          (fun n => if n = "custom" then QueryResult.err else QueryResult.notFound)
          true true true true)
      = dashboardCmdRun (Flags.mk false true 8080 "custom")
        (World.mk "0.9.0" true
          (fun n => if n = "custom" then QueryResult.notFound
            else (fun m => if m = "custom" then QueryResult.err else QueryResult.notFound) n)
          true true true true) :=
  (query_error_ignored (Flags.mk false true 8080 "custom")
    (World.mk "0.9.0" true
      (fun n => if n = "custom" then QueryResult.err else QueryResult.notFound)
      true true true true) "custom" rfl).1

/-- C8: in standalone mode with a failing launcher, exactly one generic
"not installed" message is printed, and no namespace search happens: no
cluster client is constructed and no existence query occurs. -/
theorem standalone_failure (f : Flags) (w : World) (hv : f.dashboardVersion = false)
    (hp : 0 < f.dashboardLocalPort) (hk : f.kubernetesMode = false)
    (hs : w.standaloneOk = false) :
    dashboardCmdRun f w = ([Event.standaloneRun, Event.printNotInstalled], Outcome.finished)
    ∧ (dashboardCmdRun f w).1.count Event.printNotInstalled = 1
    ∧ Event.clientInit ∉ (dashboardCmdRun f w).1
    ∧ ∀ ns, Event.probe ns ∉ (dashboardCmdRun f w).1 := by
  have hple : ¬ f.dashboardLocalPort ≤ 0 := not_le.mpr hp
  have h : dashboardCmdRun f w
      = ([Event.standaloneRun, Event.printNotInstalled], Outcome.finished) := by
    simp [dashboardCmdRun, hv, hk, hs, hple]
  refine ⟨h, ?_, by simp [h], by intro ns; simp [h]⟩
  rw [h]
  rfl

/-- Witness for C8. -/
theorem standalone_failure_witness :
    dashboardCmdRun (Flags.mk false false 8080 "dapr-system")
        (World.mk "0.9.0" true (fun _ => QueryResult.notFound) true true true false)
      = ([Event.standaloneRun, Event.printNotInstalled], Outcome.finished) :=
  (standalone_failure _ _ rfl (by decide) rfl rfl).1

/-- C10: the version flag takes precedence over everything: it prints the
dashboard version and exits 0 regardless of the port value, the kubernetes
flag and every collaborator. -/
theorem version_precedence (f : Flags) (w : World) (hv : f.dashboardVersion = true) :
    dashboardCmdRun f w
      = ([Event.printVersion w.dashboardVersionString], Outcome.exited 0) := by
  simp [dashboardCmdRun, hv]

/-- Witness for C10: version flag set together with a negative port and
the kubernetes flag. -/
theorem version_precedence_witness :
    dashboardCmdRun (Flags.mk true true (-7) "")
        (World.mk "0.9.0" false (fun _ => QueryResult.err) false false false false)
      = ([Event.printVersion "0.9.0"], Outcome.exited 0) :=
  version_precedence _ _ rfl

end DaprDashboard
